import Mathlib

/-!
Verification of the agent orchestration runtime of `src/src-python`
(`gradient_agent.py`, `routes/agent.py`) against its specification.

The embedding models:
- `Json` : the result of Python `json.loads` on a backend response string,
  together with the Python semantics of `key in value`, `value[key]` and
  `value.get(key, default)` that `GradientAgent._process_message` relies on;
- `Message`, `Tool`, `Agent` : the data model of `gradient_agent.py`;
- `loopIter` : the bounded decision loop of `GradientAgent._process_message`
  (lines 292-339), with sub-agent delegation inlined via `seedMessages`
  (which is exactly how `_process_message` seeds its working list);
- `runAsync` : `GradientAgent.run_async` (lines 341-393);
- `processAgentRequest` : the session-store handling of
  `routes/agent.py::process_agent_request` (lines 56-187).

The backend (`GradientAgent._call_gradient`) is modelled as an oracle
stream: the n-th HTTP completion call overall returns `oracle n`, which is
either a `BackendError` or a raw response string paired with the result of
`json.loads` on it.  Every backend call made during an external call is
recorded in a trace (tagged with its delegation depth), so that claims
about call counts and about the exact message lists sent can be stated.
-/

/-- A JSON value as produced by Python `json.loads`.  Numeric values are
modelled as integers; the int/float distinction never affects the control
flow of the loop (both are non-iterable, non-subscriptable scalars). -/
inductive Json where
  | null
  | boolean (b : Bool)
  | num (n : Int)
  | str (s : String)
  | arr (elems : List Json)
  | obj (fields : List (String × Json))
deriving Repr

mutual

def Json.beq : Json → Json → Bool
  | .null, .null => true
  | .boolean a, .boolean b => a == b
  | .num a, .num b => a == b
  | .str a, .str b => a == b
  | .arr a, .arr b => Json.beqList a b
  | .obj a, .obj b => Json.beqFields a b
  | _, _ => false

def Json.beqList : List Json → List Json → Bool
  | [], [] => true
  | a :: as, b :: bs => Json.beq a b && Json.beqList as bs
  | _, _ => false

def Json.beqFields : List (String × Json) → List (String × Json) → Bool
  | [], [] => true
  | f :: as, g :: bs => f.1 == g.1 && Json.beq f.2 g.2 && Json.beqFields as bs
  | _, _ => false

end

instance : BEq Json := ⟨Json.beq⟩

/-- A Python exception escaping the loop: either a `TypeError` raised by a
membership test / indexing / hashing on an unsuitable value, or a
`BackendError` (transport/HTTP failure raised by `_call_gradient`). -/
inductive PyError where
  | typeError (msg : String)
  | backendError (msg : String)
deriving BEq, Repr, DecidableEq

/-- Python `str(e)` of an exception, as used by the `f"... {str(e)}"`
interpolations in the error handlers. -/
def PyError.pyMsg : PyError → String
  | .typeError m => m
  | .backendError m => m

/-- Substring containment, Python `needle in haystack` on strings: the
needle's characters occur contiguously in the haystack. -/
def strContains (haystack needle : String) : Bool :=
  (List.range (haystack.data.length + 1)).any
    (fun i => needle.data.isPrefixOf (haystack.data.drop i))

/-- Python `key in value` for the values `json.loads` can return:
key membership for a dict, substring test for a str, element equality for
a list; a `TypeError` for int, bool and None (not iterable). -/
def Json.hasKey : Json → String → Except PyError Bool
  | .obj fields, key => .ok (fields.any (fun f => f.1 == key))
  | .str s, key => .ok (strContains s key)
  | .arr elems, key => .ok (elems.contains (Json.str key))
  | .num _, _ => .error (.typeError "argument of type int is not iterable")
  | .boolean _, _ => .error (.typeError "argument of type bool is not iterable")
  | .null, _ => .error (.typeError "argument of type NoneType is not iterable")

/-- Python `value[key]` with a string key, as used after a successful
membership test: dict lookup for a dict, a `TypeError` otherwise
(string/list indices must be integers; scalars are not subscriptable). -/
def Json.index : Json → String → Except PyError Json
  | .obj fields, key =>
      match fields.find? (fun f => f.1 == key) with
      | some f => .ok f.2
      | none => .error (.typeError "KeyError")
  | .str _, _ => .error (.typeError "string indices must be integers")
  | .arr _, _ => .error (.typeError "list indices must be integers")
  | .num _, _ => .error (.typeError "int is not subscriptable")
  | .boolean _, _ => .error (.typeError "bool is not subscriptable")
  | .null, _ => .error (.typeError "NoneType is not subscriptable")

/-- Python `value.get(key, default)`; in the loop it is only ever reached
when `value` is a dict. -/
def Json.getD : Json → String → Json → Json
  | .obj fields, key, default =>
      match fields.find? (fun f => f.1 == key) with
      | some f => f.2
      | none => default
  | _, _, default => default

/-- Python `str(value)` as used by the f-string interpolations of the
not-found messages.  A top-level str renders bare; container cases render
in Python repr style (string-escape details elided: no claim depends on
the rendering of a non-string name). -/
def Json.pyStr : Json → String
  | .str s => s
  | .num n => toString n
  | .boolean b => if b then "True" else "False"
  | .null => "None"
  | .arr _ => "[...]"
  | .obj _ => "\x7b...\x7d"

/-- A conversation message (`gradient_agent.py` lines 17-24).  The content
is a `Json` value because a delegation envelope's `"message"` field is
passed through to the sub-agent's working list unconverted; all contents
produced at the top level are strings (`Json.str`). -/
structure Message where
  role : String
  content : Json
deriving BEq, Repr

/-- A registered tool (`gradient_agent.py` lines 70-84).  The executor
models `await tool.execute(**arguments)` together with `str(result)`:
it receives the keyword-argument mapping and either returns the
stringified result or raises (an `.error` carries `str(e)`); signature
mismatches raised by the call protocol are also `.error` outcomes, since
they are raised inside the same `try` block of `_handle_tool_call`. -/
structure Tool where
  name : String
  description : String
  func : List (String × Json) → Except String String

/-- An agent (`GradientAgent.__init__`): instruction text, registered
tools (in registration order) and sub-agents (in registration order). -/
inductive Agent where
  | mk (name description instruction : String)
      (tools : List Tool) (subAgents : List Agent)

def Agent.name : Agent → String
  | .mk n _ _ _ _ => n

def Agent.description : Agent → String
  | .mk _ d _ _ _ => d

def Agent.instruction : Agent → String
  | .mk _ _ i _ _ => i

def Agent.tools : Agent → List Tool
  | .mk _ _ _ ts _ => ts

def Agent.subAgents : Agent → List Agent
  | .mk _ _ _ _ subs => subs

/-- `self.tools_map[name]`: the map is built by a dict comprehension
`{tool.name: tool for tool in self.tools}`, so for duplicate names the
later registration wins. -/
def toolsLookup (tools : List Tool) (name : String) : Option Tool :=
  tools.reverse.find? (fun t => t.name == name)

/-- `next((a for a in self.sub_agents if a.name == agent_name), None)`:
first sub-agent whose name equals the delegated name; a non-string name
compares unequal to every `a.name` (Python `==`, no exception). -/
def findSubAgent (subs : List Agent) (agentName : Json) : Option Agent :=
  match agentName with
  | .str s => subs.find? (fun a => a.name == s)
  | _ => none

/-- `GradientAgent._build_system_prompt` (lines 170-186), transcribed as
the Python string accumulation. -/
def buildSystemPrompt (agent : Agent) : String :=
  let p := agent.instruction ++ "\n\n"
  let p := if agent.tools.isEmpty then p else
    (agent.tools.foldl
      (fun acc t => acc ++ "- " ++ t.name ++ ": " ++ t.description ++ "\n")
      (p ++ "AVAILABLE TOOLS:\n")) ++ "\n"
  let p := if agent.subAgents.isEmpty then p else
    (agent.subAgents.foldl
      (fun acc a => acc ++ "- " ++ a.name ++ ": " ++ a.description ++ "\n")
      (p ++ "AVAILABLE SUB-AGENTS:\n")) ++ "\n"
  p

/-- `GradientAgent._handle_tool_call` (lines 252-263).  The registry check
`tool_name not in self.tools_map` hashes the name first (a dict or list
name raises `TypeError` before the `try` block); an unregistered name
yields the not-found text; execution failures (including a non-mapping
`arguments` value rejected by the `**` unpacking) are caught inside the
`try` block and converted to the "Error executing tool" text. -/
def handleToolCall (tools : List Tool) (toolName : Json) (args : Json) :
    Except PyError String :=
  match toolName with
  | .obj _ => .error (.typeError "unhashable type: dict")
  | .arr _ => .error (.typeError "unhashable type: list")
  | .str name =>
      match toolsLookup tools name with
      | none => .ok ("Error: Tool '" ++ name ++ "' not found")
      | some tool =>
          match args with
          | .obj fields =>
              match tool.func fields with
              | .ok r => .ok r
              | .error e => .ok ("Error executing tool: " ++ e)
          | _ => .ok ("Error executing tool: argument after ** must be a mapping")
  | other => .ok ("Error: Tool '" ++ other.pyStr ++ "' not found")

/-- One backend response: the raw completion text together with the result
of Python `json.loads` on it (`none` when the text is not valid JSON and
`json.loads` raises `JSONDecodeError`). -/
structure BackendResponse where
  raw : String
  parsed : Option Json

/-- Outcome of one call to `_call_gradient`: the assistant text, or a
`BackendError` (any transport/HTTP failure; `_call_gradient` logs and
re-raises). -/
inductive BackendResult where
  | ok (resp : BackendResponse)
  | err (msg : String)

/-- One backend call made during an external call: the delegation depth of
the loop that made it (0 = the top-level loop) and the message list sent. -/
structure CallRecord where
  depth : Nat
  messages : List Message
deriving BEq, Repr

/-- The working message list an invocation of `_process_message` starts
from (lines 282-290): the system message, the session history, then the
incoming message as a user turn. -/
def seedMessages (agent : Agent) (message : Json) (history : List Message) :
    List Message :=
  Message.mk "system" (.str (buildSystemPrompt agent)) ::
    (history ++ [Message.mk "user" message])

theorem sizeOf_subAgents_lt (a : Agent) : sizeOf a.subAgents < sizeOf a := by
  cases a with
  | mk n d i ts subs => simp [Agent.subAgents]

theorem findSubAgent_mem {subs : List Agent} {nm : Json} {a : Agent}
    (h : findSubAgent subs nm = some a) : a ∈ subs := by
  cases nm <;> simp [findSubAgent] at h
  exact List.mem_of_find?_eq_some h

/-- The `while iteration < max_iterations` loop of
`GradientAgent._process_message` (lines 292-339).  `oracle` supplies the
backend responses in global call order, `idx` is the number of backend
calls already made during the external call, `remaining` is
`max_iterations - iteration`, `history` is the (read-only) session
history, and `msgs` is the working message list.  Returns the final
answer — or the Python exception that escapes the loop — together with
the trace of backend calls made (the loop's own and, in order, those of
delegated sub-agent loops, which run `_process_message` on the sub-agent
with a fresh cap of 10, seeded via `seedMessages` from the same session
history).  Only `json.JSONDecodeError` is caught around the parsing
section; `_handle_agent_delegation` (lines 265-277) catches every
exception from the sub-agent's loop and converts it to text. -/
def loopIter (oracle : Nat → BackendResult) (history : List Message)
    (agent : Agent) (msgs : List Message) (depth remaining idx : Nat) :
    Except PyError String × List CallRecord :=
  match remaining with
  | 0 => (.ok "Error: Maximum iterations reached", [])
  | remaining' + 1 =>
    match oracle idx with
    | .err e => (.error (.backendError e), [⟨depth, msgs⟩])
    | .ok resp =>
      match resp.parsed with
      | none => (.ok resp.raw, [⟨depth, msgs⟩])
      | some data =>
        match data.hasKey "tool" with
        | .error e => (.error e, [⟨depth, msgs⟩])
        | .ok true =>
          match data.index "tool" with
          | .error e => (.error e, [⟨depth, msgs⟩])
          | .ok toolName =>
            match handleToolCall agent.tools toolName
                (data.getD "arguments" (.obj [])) with
            | .error e => (.error e, [⟨depth, msgs⟩])
            | .ok toolResult =>
              let msgs' := msgs ++ [Message.mk "assistant" (.str resp.raw),
                Message.mk "user" (.str ("Tool result: " ++ toolResult))]
              let rest := loopIter oracle history agent msgs' depth remaining' (idx + 1)
              (rest.1, ⟨depth, msgs⟩ :: rest.2)
        | .ok false =>
          match data.hasKey "agent" with
          | .error e => (.error e, [⟨depth, msgs⟩])
          | .ok true =>
            match data.index "agent" with
            | .error e => (.error e, [⟨depth, msgs⟩])
            | .ok agentName =>
              match hfind : findSubAgent agent.subAgents agentName with
              | none =>
                let agentResult := "Error: Sub-agent '" ++ agentName.pyStr ++ "' not found"
                let msgs' := msgs ++ [Message.mk "assistant" (.str resp.raw),
                  Message.mk "user" (.str ("Sub-agent result: " ++ agentResult))]
                let rest := loopIter oracle history agent msgs' depth remaining' (idx + 1)
                (rest.1, ⟨depth, msgs⟩ :: rest.2)
              | some sub =>
                let msgJson := data.getD "message" (.str "")
                let subRun := loopIter oracle history sub
                  (seedMessages sub msgJson history) (depth + 1) 10 (idx + 1)
                let agentResult := match subRun.1 with
                  | .ok t => t
                  | .error e => "Error delegating to sub-agent: " ++ e.pyMsg
                let msgs' := msgs ++ [Message.mk "assistant" (.str resp.raw),
                  Message.mk "user" (.str ("Sub-agent result: " ++ agentResult))]
                let rest := loopIter oracle history agent msgs' depth remaining'
                  (idx + 1 + subRun.2.length)
                (rest.1, ⟨depth, msgs⟩ :: (subRun.2 ++ rest.2))
          | .ok false => (.ok resp.raw, [⟨depth, msgs⟩])
termination_by (sizeOf agent, remaining)
decreasing_by
  all_goals first
    | (apply Prod.Lex.right; omega)
    | (apply Prod.Lex.left
       exact Nat.lt_trans
         (List.sizeOf_lt_of_mem (findSubAgent_mem hfind))
         (sizeOf_subAgents_lt agent))

/-- `GradientAgent._process_message` (lines 279-339): seed the working
list from the system prompt, the session history and the incoming
message, then run the bounded loop. -/
def processMessage (oracle : Nat → BackendResult) (agent : Agent)
    (message : Json) (history : List Message) (depth idx : Nat) :
    Except PyError String × List CallRecord :=
  loopIter oracle history agent (seedMessages agent message history) depth 10 idx

/-- Python `str.strip()`: drop whitespace from both ends. -/
def pyStrip (s : String) : String :=
  String.mk (((s.data.dropWhile Char.isWhitespace).reverse.dropWhile
    Char.isWhitespace).reverse)

/-- The message-text extraction of `run_async` (lines 353-360): each text
part is appended followed by a space, then the result is stripped. -/
def extractText (parts : List String) : String :=
  pyStrip (String.join (parts.map (fun p => p ++ " ")))

/-- Observable outcome of one external call to `GradientAgent.run_async`:
the final answer (or the escaping exception), the history of the
`Session` object `run_async` builds, and the trace of backend calls. -/
structure RunOutput where
  result : Except PyError String
  history : List Message
  trace : List CallRecord
deriving Repr

/-- `GradientAgent.run_async` (lines 341-393): extract the message text,
build a fresh `Session` (line 364 constructs a new `Session` object
unconditionally), append the user message to its history, run
`_process_message` against that session, then append the assistant
answer.  If the loop raises, the exception propagates before the
assistant turn is appended. -/
def runAsync (oracle : Nat → BackendResult) (agent : Agent)
    (parts : List String) : RunOutput :=
  let messageText := extractText parts
  let session0 : List Message := []
  let session1 := session0 ++ [Message.mk "user" (.str messageText)]
  let run := processMessage oracle agent (.str messageText) session1 0 0
  match run.1 with
  | .ok answer =>
      ⟨.ok answer, session1 ++ [Message.mk "assistant" (.str answer)], run.2⟩
  | .error e => ⟨.error e, session1, run.2⟩

/-- The session store of `SessionService` (lines 44-67): a keyed map from
`"app:user:session"` strings to stored session histories. -/
def Store := List (String × List Message)

/-- `routes/agent.py::process_agent_request` (lines 56-187), restricted to
the state it touches: look up the stored session for the request's key and
create an empty one if absent (lines 82-92), run the agent via the runner
(which delegates to `GradientAgent.run_async`), and return the response
text (an empty answer is replaced by "No response generated"); any
exception from the runner is re-raised as an HTTP 500, modelled as the
`.error` case.  The optional context parts are concatenated into the
message by the caller-side assembly, modelled by passing them in `parts`. -/
def processAgentRequest (oracle : Nat → BackendResult) (agent : Agent)
    (appName : String) (store : Store) (parts : List String)
    (sessionId : String) : Store × Except PyError String :=
  let key := appName ++ ":default_user:" ++ sessionId
  let store' : Store :=
    match store.find? (fun e => e.1 == key) with
    | some _ => store
    | none => (key, ([] : List Message)) :: store
  let out := runAsync oracle agent parts
  match out.result with
  | .ok answer =>
      (store', .ok (if answer == "" then "No response generated" else answer))
  | .error e => (store', .error e)

/-! ## Step lemmas for the loop

Each lemma captures one branch of a single `while` iteration of
`_process_message`; concrete runs and the claim theorems are assembled
from them. -/

theorem loopIter_backendErr {oracle : Nat → BackendResult}
    {history : List Message} {agent : Agent} {msgs : List Message}
    {depth r idx : Nat} {e : String} (h : oracle idx = .err e) :
    loopIter oracle history agent msgs depth (r + 1) idx =
      (.error (.backendError e), [⟨depth, msgs⟩]) := by
  unfold loopIter
  simp only [h]

theorem loopIter_notJson {oracle : Nat → BackendResult}
    {history : List Message} {agent : Agent} {msgs : List Message}
    {depth r idx : Nat} {resp : BackendResponse}
    (h : oracle idx = .ok resp) (hp : resp.parsed = none) :
    loopIter oracle history agent msgs depth (r + 1) idx =
      (.ok resp.raw, [⟨depth, msgs⟩]) := by
  unfold loopIter
  simp only [h, hp]

theorem loopIter_finalAnswer {oracle : Nat → BackendResult}
    {history : List Message} {agent : Agent} {msgs : List Message}
    {depth r idx : Nat} {resp : BackendResponse} {data : Json}
    (h : oracle idx = .ok resp) (hp : resp.parsed = some data)
    (ht : data.hasKey "tool" = .ok false)
    (ha : data.hasKey "agent" = .ok false) :
    loopIter oracle history agent msgs depth (r + 1) idx =
      (.ok resp.raw, [⟨depth, msgs⟩]) := by
  unfold loopIter
  simp only [h, hp, ht, ha]

theorem loopIter_keyTypeErr {oracle : Nat → BackendResult}
    {history : List Message} {agent : Agent} {msgs : List Message}
    {depth r idx : Nat} {resp : BackendResponse} {data : Json} {e : PyError}
    (h : oracle idx = .ok resp) (hp : resp.parsed = some data)
    (ht : data.hasKey "tool" = .error e) :
    loopIter oracle history agent msgs depth (r + 1) idx =
      (.error e, [⟨depth, msgs⟩]) := by
  unfold loopIter
  simp only [h, hp, ht]

theorem loopIter_toolIndexErr {oracle : Nat → BackendResult}
    {history : List Message} {agent : Agent} {msgs : List Message}
    {depth r idx : Nat} {resp : BackendResponse} {data : Json} {e : PyError}
    (h : oracle idx = .ok resp) (hp : resp.parsed = some data)
    (ht : data.hasKey "tool" = .ok true)
    (hi : data.index "tool" = .error e) :
    loopIter oracle history agent msgs depth (r + 1) idx =
      (.error e, [⟨depth, msgs⟩]) := by
  unfold loopIter
  simp only [h, hp, ht, hi]

theorem loopIter_toolStep {oracle : Nat → BackendResult}
    {history : List Message} {agent : Agent} {msgs : List Message}
    {depth r idx : Nat} {resp : BackendResponse} {data toolName : Json}
    {toolResult : String}
    (h : oracle idx = .ok resp) (hp : resp.parsed = some data)
    (ht : data.hasKey "tool" = .ok true)
    (hi : data.index "tool" = .ok toolName)
    (hc : handleToolCall agent.tools toolName
      (data.getD "arguments" (.obj [])) = .ok toolResult) :
    loopIter oracle history agent msgs depth (r + 1) idx =
      (let rest := loopIter oracle history agent
        (msgs ++ [Message.mk "assistant" (.str resp.raw),
          Message.mk "user" (.str ("Tool result: " ++ toolResult))])
        depth r (idx + 1)
      (rest.1, ⟨depth, msgs⟩ :: rest.2)) := by
  conv_lhs => unfold loopIter
  simp only [h, hp, ht, hi, hc]

theorem loopIter_toolCallErr {oracle : Nat → BackendResult}
    {history : List Message} {agent : Agent} {msgs : List Message}
    {depth r idx : Nat} {resp : BackendResponse} {data toolName : Json}
    {e : PyError}
    (h : oracle idx = .ok resp) (hp : resp.parsed = some data)
    (ht : data.hasKey "tool" = .ok true)
    (hi : data.index "tool" = .ok toolName)
    (hc : handleToolCall agent.tools toolName
      (data.getD "arguments" (.obj [])) = .error e) :
    loopIter oracle history agent msgs depth (r + 1) idx =
      (.error e, [⟨depth, msgs⟩]) := by
  unfold loopIter
  simp only [h, hp, ht, hi, hc]

theorem loopIter_agentIndexErr {oracle : Nat → BackendResult}
    {history : List Message} {agent : Agent} {msgs : List Message}
    {depth r idx : Nat} {resp : BackendResponse} {data : Json} {e : PyError}
    (h : oracle idx = .ok resp) (hp : resp.parsed = some data)
    (ht : data.hasKey "tool" = .ok false)
    (ha : data.hasKey "agent" = .ok true)
    (hi : data.index "agent" = .error e) :
    loopIter oracle history agent msgs depth (r + 1) idx =
      (.error e, [⟨depth, msgs⟩]) := by
  unfold loopIter
  simp only [h, hp, ht, ha, hi]

theorem loopIter_agentNotFound {oracle : Nat → BackendResult}
    {history : List Message} {agent : Agent} {msgs : List Message}
    {depth r idx : Nat} {resp : BackendResponse} {data agentName : Json}
    (h : oracle idx = .ok resp) (hp : resp.parsed = some data)
    (ht : data.hasKey "tool" = .ok false)
    (ha : data.hasKey "agent" = .ok true)
    (hi : data.index "agent" = .ok agentName)
    (hf : findSubAgent agent.subAgents agentName = none) :
    loopIter oracle history agent msgs depth (r + 1) idx =
      (let rest := loopIter oracle history agent
        (msgs ++ [Message.mk "assistant" (.str resp.raw),
          Message.mk "user" (.str ("Sub-agent result: " ++
            ("Error: Sub-agent '" ++ agentName.pyStr ++ "' not found")))])
        depth r (idx + 1)
      (rest.1, ⟨depth, msgs⟩ :: rest.2)) := by
  conv_lhs => unfold loopIter
  simp only [h, hp, ht, ha, hi]
  split
  · rfl
  · next sub2 heq => rw [hf] at heq; exact Option.noConfusion heq

theorem loopIter_delegate {oracle : Nat → BackendResult}
    {history : List Message} {agent : Agent} {msgs : List Message}
    {depth r idx : Nat} {resp : BackendResponse} {data agentName : Json}
    {sub : Agent}
    (h : oracle idx = .ok resp) (hp : resp.parsed = some data)
    (ht : data.hasKey "tool" = .ok false)
    (ha : data.hasKey "agent" = .ok true)
    (hi : data.index "agent" = .ok agentName)
    (hf : findSubAgent agent.subAgents agentName = some sub) :
    loopIter oracle history agent msgs depth (r + 1) idx =
      (let subRun := loopIter oracle history sub
        (seedMessages sub (data.getD "message" (.str "")) history)
        (depth + 1) 10 (idx + 1)
      let agentResult := match subRun.1 with
        | .ok t => t
        | .error e => "Error delegating to sub-agent: " ++ e.pyMsg
      let rest := loopIter oracle history agent
        (msgs ++ [Message.mk "assistant" (.str resp.raw),
          Message.mk "user" (.str ("Sub-agent result: " ++ agentResult))])
        depth r (idx + 1 + subRun.2.length)
      (rest.1, ⟨depth, msgs⟩ :: (subRun.2 ++ rest.2))) := by
  conv_lhs => unfold loopIter
  simp only [h, hp, ht, ha, hi]
  split
  · next heq => rw [hf] at heq; exact Option.noConfusion heq
  · next sub2 heq =>
      rw [hf] at heq
      cases heq
      rfl


theorem runAsync_result (oracle : Nat → BackendResult) (agent : Agent)
    (parts : List String) :
    (runAsync oracle agent parts).result =
      (processMessage oracle agent (.str (extractText parts))
        [Message.mk "user" (.str (extractText parts))] 0 0).1 := by
  unfold runAsync
  simp only [List.nil_append]
  split <;> simp_all

theorem runAsync_trace (oracle : Nat → BackendResult) (agent : Agent)
    (parts : List String) :
    (runAsync oracle agent parts).trace =
      (processMessage oracle agent (.str (extractText parts))
        [Message.mk "user" (.str (extractText parts))] 0 0).2 := by
  unfold runAsync
  simp only [List.nil_append]
  split <;> simp_all

theorem runAsync_history_ok {oracle : Nat → BackendResult} {agent : Agent}
    {parts : List String} {answer : String}
    (h : (processMessage oracle agent (.str (extractText parts))
      [Message.mk "user" (.str (extractText parts))] 0 0).1 = .ok answer) :
    (runAsync oracle agent parts).history =
      [Message.mk "user" (.str (extractText parts)),
       Message.mk "assistant" (.str answer)] := by
  unfold runAsync
  simp only [List.nil_append]
  split <;> simp_all

theorem index_ok_inv {d : Json} {k : String} {v : Json}
    (h : d.index k = .ok v) :
    ∃ fs p, d = .obj fs ∧ List.find? (fun f => f.1 == k) fs = some p ∧
      p.2 = v := by
  cases d <;> simp only [Json.index] at h <;> try exact absurd h (by simp)
  next fs =>
    refine ⟨fs, ?_⟩
    cases hf : List.find? (fun f => f.1 == k) fs with
    | none => rw [hf] at h; exact absurd h (by simp)
    | some p => rw [hf] at h; simp only [Except.ok.injEq] at h; exact ⟨p, rfl, rfl, h⟩

theorem hasKey_obj_true_index_ok {fs : List (String × Json)} {k : String}
    (h : Json.hasKey (.obj fs) k = .ok true) :
    ∃ p, List.find? (fun f => f.1 == k) fs = some p ∧
      Json.index (.obj fs) k = .ok p.2 := by
  simp only [Json.hasKey, Except.ok.injEq, List.any_eq_true] at h
  obtain ⟨p, hp, hk⟩ := h
  have hne : List.find? (fun f => f.1 == k) fs ≠ none := by
    simp only [ne_eq, List.find?_eq_none, not_forall]
    exact ⟨p, hp, by simp [hk]⟩
  cases hf : List.find? (fun f => f.1 == k) fs with
  | none => exact absurd hf hne
  | some q => exact ⟨q, rfl, by simp [Json.index, hf]⟩

theorem handleToolCall_str_ok (tools : List Tool) (s : String) (args : Json) :
    ∃ t, handleToolCall tools (.str s) args = .ok t := by
  simp only [handleToolCall]
  cases hl : toolsLookup tools s with
  | none => simp [hl]
  | some tool =>
      cases args with
      | obj fields =>
          cases hf : tool.func fields with
          | ok r => simp [hl, hf]
          | error e => simp [hl, hf]
      | null => simp [hl]
      | boolean b => simp [hl]
      | num n => simp [hl]
      | str s2 => simp [hl]
      | arr es => simp [hl]

/-- Whenever the loop still has iterations left, its first action is a
backend call with the current working list, so the trace starts with it. -/
theorem loopIter_trace_head (oracle : Nat → BackendResult)
    (history : List Message) (agent : Agent) (msgs : List Message)
    (depth r idx : Nat) :
    (loopIter oracle history agent msgs depth (r + 1) idx).2.head? =
      some ⟨depth, msgs⟩ := by
  unfold loopIter
  repeat' split
  all_goals rfl

theorem hasKey_ok_shape {d : Json} {k : String} {b : Bool}
    (h : d.hasKey k = .ok b) (k2 : String) : ∃ b2, d.hasKey k2 = .ok b2 := by
  cases d <;> simp [Json.hasKey] at h ⊢

/-- Every call in a loop invocation's trace was made at the invocation's
own delegation depth or deeper. -/
theorem loopIter_trace_depth_ge (oracle : Nat → BackendResult)
    (history : List Message) (agent : Agent) (msgs : List Message)
    (depth remaining idx : Nat) :
    ∀ c ∈ (loopIter oracle history agent msgs depth remaining idx).2,
      depth ≤ c.depth := by
  induction agent, msgs, depth, remaining, idx
    using loopIter.induct oracle history with
  | case1 agent msgs depth idx =>
      unfold loopIter
      simp
  | case2 agent msgs depth idx r e h =>
      rw [loopIter_backendErr h]
      simp
  | case3 agent msgs depth idx r resp h hp =>
      rw [loopIter_notJson h hp]
      simp
  | case4 agent msgs depth idx r resp h data hp e ht =>
      rw [loopIter_keyTypeErr h hp ht]
      simp
  | case5 agent msgs depth idx r resp h data hp ht e hi =>
      rw [loopIter_toolIndexErr h hp ht hi]
      simp
  | case6 agent msgs depth idx r resp h data hp ht toolName hi e hc =>
      rw [loopIter_toolCallErr h hp ht hi hc]
      simp
  | case7 agent msgs depth idx r resp h data hp ht toolName hi toolResult hc msgs2 ih =>
      rw [loopIter_toolStep h hp ht hi hc]
      intro c hc2
      simp only [List.mem_cons] at hc2
      rcases hc2 with rfl | hc2
      · rfl
      · exact ih c hc2
  | case8 agent msgs depth idx r resp h data hp ht e ha =>
      obtain ⟨b2, h2⟩ := hasKey_ok_shape ht "agent"
      rw [h2] at ha
      exact absurd ha (by simp)
  | case9 agent msgs depth idx r resp h data hp ht ha e hi =>
      rw [loopIter_agentIndexErr h hp ht ha hi]
      simp
  | case10 agent msgs depth idx r resp h data hp ht ha agentName hi hf agentResult msgs2 ih =>
      rw [loopIter_agentNotFound h hp ht ha hi hf]
      intro c hc2
      simp only [List.mem_cons] at hc2
      rcases hc2 with rfl | hc2
      · rfl
      · exact ih c hc2
  | case11 agent msgs depth idx r resp h data hp ht ha agentName hi sub hf msgJson subRun agentResult msgs2 ihsub ihsub2 ih =>
      rw [loopIter_delegate h hp ht ha hi hf]
      intro c hc2
      simp only [List.mem_cons, List.mem_append] at hc2
      rcases hc2 with rfl | hc2 | hc2
      · rfl
      · exact Nat.le_of_succ_le (ihsub2 c hc2)
      · exact ih c hc2
  | case12 agent msgs depth idx r resp h data hp ht ha =>
      rw [loopIter_finalAnswer h hp ht ha]
      simp

/-- A loop invocation makes at most `remaining` backend calls of its own
(calls at its own delegation depth); delegated sub-loops account for the
rest of the trace. -/
theorem loopIter_own_calls_le (oracle : Nat → BackendResult)
    (history : List Message) (agent : Agent) (msgs : List Message)
    (depth remaining idx : Nat) :
    ((loopIter oracle history agent msgs depth remaining idx).2.filter
      (fun c => c.depth == depth)).length ≤ remaining := by
  induction agent, msgs, depth, remaining, idx
    using loopIter.induct oracle history with
  | case1 agent msgs depth idx =>
      unfold loopIter
      simp
  | case2 agent msgs depth idx r e h =>
      rw [loopIter_backendErr h]
      simp [List.filter]
  | case3 agent msgs depth idx r resp h hp =>
      rw [loopIter_notJson h hp]
      simp [List.filter]
  | case4 agent msgs depth idx r resp h data hp e ht =>
      rw [loopIter_keyTypeErr h hp ht]
      simp [List.filter]
  | case5 agent msgs depth idx r resp h data hp ht e hi =>
      rw [loopIter_toolIndexErr h hp ht hi]
      simp [List.filter]
  | case6 agent msgs depth idx r resp h data hp ht toolName hi e hc =>
      rw [loopIter_toolCallErr h hp ht hi hc]
      simp [List.filter]
  | case7 agent msgs depth idx r resp h data hp ht toolName hi toolResult hc msgs2 ih =>
      rw [loopIter_toolStep h hp ht hi hc]
      unfold_let msgs2 at ih
      simp only [List.filter_cons, beq_self_eq_true, if_pos, List.length_cons]
      omega
  | case8 agent msgs depth idx r resp h data hp ht e ha =>
      obtain ⟨b2, h2⟩ := hasKey_ok_shape ht "agent"
      rw [h2] at ha
      exact absurd ha (by simp)
  | case9 agent msgs depth idx r resp h data hp ht ha e hi =>
      rw [loopIter_agentIndexErr h hp ht ha hi]
      simp [List.filter]
  | case10 agent msgs depth idx r resp h data hp ht ha agentName hi hf agentResult msgs2 ih =>
      rw [loopIter_agentNotFound h hp ht ha hi hf]
      unfold_let agentResult msgs2 at ih
      simp only [List.filter_cons, beq_self_eq_true, if_pos, List.length_cons]
      omega
  | case11 agent msgs depth idx r resp h data hp ht ha agentName hi sub hf msgJson subRun agentResult msgs2 ihsub ihsub2 ih =>
      rw [loopIter_delegate h hp ht ha hi hf]
      unfold_let msgJson subRun agentResult msgs2 at ih
      simp only [List.filter_cons, List.filter_append, beq_self_eq_true, if_pos,
        List.length_cons, List.length_append]
      have hsub : ((loopIter oracle history sub
          (seedMessages sub (data.getD "message" (.str "")) history)
          (depth + 1) 10 (idx + 1)).2.filter
            (fun c => c.depth == depth)) = [] := by
        rw [List.filter_eq_nil_iff]
        intro c hcmem
        have := loopIter_trace_depth_ge oracle history sub
          (seedMessages sub (data.getD "message" (.str "")) history)
          (depth + 1) 10 (idx + 1) c hcmem
        simp only [beq_iff_eq]
        omega
      rw [hsub]
      simp only [List.length_nil]
      omega
  | case12 agent msgs depth idx r resp h data hp ht ha =>
      rw [loopIter_finalAnswer h hp ht ha]
      simp [List.filter]

theorem handleToolCall_err_inv {tools : List Tool} {tn args : Json}
    {e : PyError} (h : handleToolCall tools tn args = .error e) :
    (∃ fs, tn = Json.obj fs) ∨ (∃ es, tn = Json.arr es) := by
  cases tn with
  | obj fs => exact Or.inl ⟨fs, rfl⟩
  | arr es => exact Or.inr ⟨es, rfl⟩
  | str s =>
      obtain ⟨t, hok⟩ := handleToolCall_str_ok tools s args
      rw [hok] at h
      exact Except.noConfusion h
  | null => simp [handleToolCall] at h
  | boolean b => simp [handleToolCall] at h
  | num n => simp [handleToolCall] at h

/-- A backend outcome that the loop always interprets as a tool call:
a successful response parsing to a JSON object whose `"tool"` entry is a
string. -/
def isStrToolEnvelope (b : BackendResult) : Bool :=
  match b with
  | .err _ => false
  | .ok r =>
    match r.parsed with
    | some (.obj fields) =>
      match List.find? (fun f => f.1 == "tool") fields with
      | some f =>
        match f.2 with
        | .str _ => true
        | _ => false
      | none => false
    | _ => false

/-- If every backend response is a tool-call envelope, the loop burns all
its iterations, one backend call each, and ends with the fixed
max-iterations error text. -/
theorem loopIter_allTool {oracle : Nat → BackendResult}
    (h : ∀ i, isStrToolEnvelope (oracle i) = true)
    (history : List Message) (agent : Agent) (depth : Nat) :
    ∀ r msgs idx,
      (loopIter oracle history agent msgs depth r idx).1 =
          .ok "Error: Maximum iterations reached" ∧
        (loopIter oracle history agent msgs depth r idx).2.length = r := by
  intro r
  induction r with
  | zero =>
      intro msgs idx
      unfold loopIter
      simp
  | succ r ih =>
      intro msgs idx
      have hi := h idx
      cases ho : oracle idx with
      | err e => rw [ho] at hi; simp [isStrToolEnvelope] at hi
      | ok resp =>
        rw [ho] at hi
        cases hp : resp.parsed with
        | none => simp [isStrToolEnvelope, hp] at hi
        | some data =>
          cases data with
          | obj fields =>
            cases hf : List.find? (fun f => f.1 == "tool") fields with
            | none => simp [isStrToolEnvelope, hp, hf] at hi
            | some f =>
              cases hv : f.2 with
              | str s =>
                have htool : Json.hasKey (.obj fields) "tool" = .ok true := by
                  simp only [Json.hasKey, Except.ok.injEq, List.any_eq_true]
                  exact ⟨f, List.mem_of_find?_eq_some hf, by simpa using List.find?_some hf⟩
                have hindex : Json.index (.obj fields) "tool" = .ok (.str s) := by
                  simp [Json.index, hf, hv]
                obtain ⟨t, hc⟩ := handleToolCall_str_ok agent.tools s
                  (Json.getD (.obj fields) "arguments" (.obj []))
                rw [loopIter_toolStep ho hp htool hindex hc]
                have := ih (msgs ++ [Message.mk "assistant" (.str resp.raw),
                  Message.mk "user" (.str ("Tool result: " ++ t))]) (idx + 1)
                simp only [List.length_cons]
                exact ⟨this.1, by rw [this.2]⟩
              | null => simp [isStrToolEnvelope, hp, hf, hv] at hi
              | boolean b => simp [isStrToolEnvelope, hp, hf, hv] at hi
              | num n => simp [isStrToolEnvelope, hp, hf, hv] at hi
              | arr es => simp [isStrToolEnvelope, hp, hf, hv] at hi
              | obj fs2 => simp [isStrToolEnvelope, hp, hf, hv] at hi
          | null => simp [isStrToolEnvelope, hp] at hi
          | boolean b => simp [isStrToolEnvelope, hp] at hi
          | num n => simp [isStrToolEnvelope, hp] at hi
          | str s => simp [isStrToolEnvelope, hp] at hi
          | arr es => simp [isStrToolEnvelope, hp] at hi

/-- Backend outcomes the loop can digest without raising: a response that
fails to parse, or parses to an object whose `"tool"` entry (if any) is
hashable, or to a string/array not containing `"tool"` or `"agent"`.
A scalar (number, boolean, null), a string or array containing
`"tool"`/`"agent"`, or a dict/list `"tool"` value all make the loop raise
an uncaught `TypeError`. -/
def responseSafe (b : BackendResult) : Bool :=
  match b with
  | .err _ => false
  | .ok r =>
    match r.parsed with
    | none => true
    | some (.obj fields) =>
      match List.find? (fun f => f.1 == "tool") fields with
      | some f =>
        match f.2 with
        | .obj _ => false
        | .arr _ => false
        | _ => true
      | none => true
    | some (.str s) => !(strContains s "tool") && !(strContains s "agent")
    | some (.arr es) =>
        !(es.contains (Json.str "tool")) && !(es.contains (Json.str "agent"))
    | some (.num _) => false
    | some (.boolean _) => false
    | some .null => false

/-- Under safe responses the loop invocation always returns a string
(no uncaught exception), whatever the configuration. -/
theorem loopIter_safe {oracle : Nat → BackendResult}
    (hsafe : ∀ i, responseSafe (oracle i) = true)
    (history : List Message) (agent : Agent) (msgs : List Message)
    (depth remaining idx : Nat) :
    ∃ s, (loopIter oracle history agent msgs depth remaining idx).1 = .ok s := by
  induction agent, msgs, depth, remaining, idx
    using loopIter.induct oracle history with
  | case1 agent msgs depth idx =>
      unfold loopIter
      exact ⟨_, rfl⟩
  | case2 agent msgs depth idx r e h =>
      have hs := hsafe idx
      rw [h] at hs
      simp [responseSafe] at hs
  | case3 agent msgs depth idx r resp h hp =>
      rw [loopIter_notJson h hp]
      exact ⟨_, rfl⟩
  | case4 agent msgs depth idx r resp h data hp e ht =>
      have hs := hsafe idx
      rw [h] at hs
      simp only [responseSafe, hp] at hs
      cases data <;> simp [Json.hasKey] at ht <;> simp at hs
  | case5 agent msgs depth idx r resp h data hp ht e hi =>
      have hs := hsafe idx
      rw [h] at hs
      simp only [responseSafe, hp] at hs
      cases data with
      | obj fields =>
          obtain ⟨p, hfp, hidx⟩ := hasKey_obj_true_index_ok ht
          rw [hidx] at hi
          exact Except.noConfusion hi
      | str s =>
          simp only [Json.hasKey, Except.ok.injEq] at ht
          simp [ht] at hs
      | arr es =>
          simp only [Json.hasKey, Except.ok.injEq] at ht
          simp [ht] at hs
      | null => simp [Json.hasKey] at ht
      | boolean b => simp [Json.hasKey] at ht
      | num n => simp [Json.hasKey] at ht
  | case6 agent msgs depth idx r resp h data hp ht toolName hi e hc =>
      have hs := hsafe idx
      rw [h] at hs
      simp only [responseSafe, hp] at hs
      obtain ⟨fs, p, hdata, hfind, hval⟩ := index_ok_inv hi
      subst hdata
      rcases handleToolCall_err_inv hc with ⟨fs2, hv⟩ | ⟨es2, hv⟩ <;>
        rw [hv] at hval <;> simp [hfind, hval] at hs
  | case7 agent msgs depth idx r resp h data hp ht toolName hi toolResult hc msgs2 ih =>
      rw [loopIter_toolStep h hp ht hi hc]
      exact ih
  | case8 agent msgs depth idx r resp h data hp ht e ha =>
      obtain ⟨b2, h2⟩ := hasKey_ok_shape ht "agent"
      rw [h2] at ha
      exact Except.noConfusion ha
  | case9 agent msgs depth idx r resp h data hp ht ha e hi =>
      have hs := hsafe idx
      rw [h] at hs
      simp only [responseSafe, hp] at hs
      cases data with
      | obj fields =>
          obtain ⟨p, hfp, hidx⟩ := hasKey_obj_true_index_ok ha
          rw [hidx] at hi
          exact Except.noConfusion hi
      | str s =>
          simp only [Json.hasKey, Except.ok.injEq] at ha
          simp [ha] at hs
      | arr es =>
          simp only [Json.hasKey, Except.ok.injEq] at ha
          simp [ha] at hs
      | null => simp [Json.hasKey] at ht
      | boolean b => simp [Json.hasKey] at ht
      | num n => simp [Json.hasKey] at ht
  | case10 agent msgs depth idx r resp h data hp ht ha agentName hi hf agentResult msgs2 ih =>
      rw [loopIter_agentNotFound h hp ht ha hi hf]
      exact ih
  | case11 agent msgs depth idx r resp h data hp ht ha agentName hi sub hf msgJson subRun agentResult msgs2 ihsub ihsub2 ih =>
      rw [loopIter_delegate h hp ht ha hi hf]
      exact ih
  | case12 agent msgs depth idx r resp h data hp ht ha =>
      rw [loopIter_finalAnswer h hp ht ha]
      exact ⟨_, rfl⟩

/-- Concatenation of a list of rendered lines. -/
def concatLines (l : List String) : String :=
  l.foldr (fun s acc => s ++ acc) ""

/-- The system prompt as the spec describes it: the instruction text,
then (when tools are registered) one rendered `"- <name>: <description>"`
line per tool in registration order under the tools header, then the same
for sub-agents, each section omitted when its list is empty. -/
def systemPromptSpec (agent : Agent) : String :=
  agent.instruction ++ "\n\n" ++
    (if agent.tools.isEmpty then "" else
      "AVAILABLE TOOLS:\n" ++
        concatLines (agent.tools.map
          (fun t => "- " ++ t.name ++ ": " ++ t.description ++ "\n")) ++ "\n") ++
    (if agent.subAgents.isEmpty then "" else
      "AVAILABLE SUB-AGENTS:\n" ++
        concatLines (agent.subAgents.map
          (fun a => "- " ++ a.name ++ ": " ++ a.description ++ "\n")) ++ "\n")

theorem foldl_append_concatLines {α : Type} (g : α → String) :
    ∀ (l : List α) (init : String),
      l.foldl (fun acc x => acc ++ g x) init = init ++ concatLines (l.map g)
  | [], init => by simp [concatLines]
  | a :: l, init => by
      simp only [List.foldl_cons, List.map_cons, concatLines, List.foldr_cons]
      rw [foldl_append_concatLines g l (init ++ g a)]
      simp [concatLines, String.append_assoc]

/-- C9: the generated system prompt is exactly the instruction text
followed by one rendered "- <name>: <description>" line per registered
tool and then per sub-agent, matching the registries in registration
order, with each section omitted when its list is empty. -/
theorem system_prompt_matches_registry (agent : Agent) :
    buildSystemPrompt agent = systemPromptSpec agent := by
  have hfunT : (fun (acc : String) (t : Tool) =>
      acc ++ "- " ++ t.name ++ ": " ++ t.description ++ "\n") =
      (fun (acc : String) (t : Tool) =>
        acc ++ ("- " ++ t.name ++ ": " ++ t.description ++ "\n")) := by
    funext acc t
    simp [String.append_assoc]
  have hfunA : (fun (acc : String) (a : Agent) =>
      acc ++ "- " ++ a.name ++ ": " ++ a.description ++ "\n") =
      (fun (acc : String) (a : Agent) =>
        acc ++ ("- " ++ a.name ++ ": " ++ a.description ++ "\n")) := by
    funext acc a
    simp [String.append_assoc]
  unfold buildSystemPrompt systemPromptSpec
  rw [hfunT, hfunA]
  simp only [foldl_append_concatLines
      (fun (t : Tool) => "- " ++ t.name ++ ": " ++ t.description ++ "\n"),
    foldl_append_concatLines
      (fun (a : Agent) => "- " ++ a.name ++ ": " ++ a.description ++ "\n")]
  by_cases h1 : agent.tools.isEmpty <;> by_cases h2 : agent.subAgents.isEmpty <;>
    simp [h1, h2, ← String.append_assoc, String.append_empty]

/-! ## Concrete fixtures for counterexamples and witnesses -/

/-- A minimal agent: no tools, no sub-agents. -/
def plainAgent : Agent := .mk "arrow" "a plain assistant" "You help." [] []

/-- A leaf sub-agent. -/
def agentB : Agent := .mk "B" "summarizes text" "You summarize." [] []

/-- A coordinator that can delegate to `agentB`. -/
def agentA : Agent := .mk "A" "coordinator" "You coordinate." [] [agentB]

/-- The session history `run_async` passes to the loop for input "hi". -/
def hist0 : List Message := [Message.mk "user" (.str "hi")]

/-- A plain-text response: not valid JSON. -/
def helloResp : BackendResponse := ⟨"Hello", none⟩

def oracleHello : Nat → BackendResult := fun _ => .ok helloResp

/-- The parsed delegation envelope targeting sub-agent "B". -/
def delegData : Json := .obj [("agent", .str "B"), ("message", .str "m")]

/-- A delegation-envelope response, as raw text and parsed. -/
def delegResp : BackendResponse :=
  ⟨"\x7b\"agent\": \"B\", \"message\": \"m\"\x7d", some delegData⟩

/-- Another plain-text (non-JSON) response. -/
def doneResp : BackendResponse := ⟨"All done.", none⟩

/-- Backend stream: the parent always delegates (even call indices), the
sub-agent always answers with plain text (odd call indices). -/
def oracleAlternating : Nat → BackendResult :=
  fun i => if i % 2 == 0 then .ok delegResp else .ok doneResp

theorem loopIter_ten (oracle : Nat → BackendResult) (history : List Message)
    (agent : Agent) (msgs : List Message) (depth idx : Nat) :
    loopIter oracle history agent msgs depth 10 idx =
      loopIter oracle history agent msgs depth (9 + 1) idx := rfl

/-- Delegation step when the sub-agent's loop returns an answer. -/
theorem loopIter_delegate_ok {oracle : Nat → BackendResult}
    {history : List Message} {agent : Agent} {msgs : List Message}
    {depth r idx : Nat} {resp : BackendResponse} {data agentName : Json}
    {sub : Agent} {t : String} {subTrace : List CallRecord}
    (h : oracle idx = .ok resp) (hp : resp.parsed = some data)
    (ht : data.hasKey "tool" = .ok false)
    (ha : data.hasKey "agent" = .ok true)
    (hi : data.index "agent" = .ok agentName)
    (hf : findSubAgent agent.subAgents agentName = some sub)
    (hrun : loopIter oracle history sub
      (seedMessages sub (data.getD "message" (.str "")) history)
      (depth + 1) 10 (idx + 1) = (.ok t, subTrace)) :
    loopIter oracle history agent msgs depth (r + 1) idx =
      (let rest := loopIter oracle history agent
        (msgs ++ [Message.mk "assistant" (.str resp.raw),
          Message.mk "user" (.str ("Sub-agent result: " ++ t))])
        depth r (idx + 1 + subTrace.length)
      (rest.1, ⟨depth, msgs⟩ :: (subTrace ++ rest.2))) := by
  rw [loopIter_delegate h hp ht ha hi hf]
  simp only [hrun]

/-- Delegation step when the sub-agent's loop raises: the exception —
whatever it is, `BackendError` included — is caught by
`_handle_agent_delegation` and converted to a textual result. -/
theorem loopIter_delegate_err {oracle : Nat → BackendResult}
    {history : List Message} {agent : Agent} {msgs : List Message}
    {depth r idx : Nat} {resp : BackendResponse} {data agentName : Json}
    {sub : Agent} {e : PyError} {subTrace : List CallRecord}
    (h : oracle idx = .ok resp) (hp : resp.parsed = some data)
    (ht : data.hasKey "tool" = .ok false)
    (ha : data.hasKey "agent" = .ok true)
    (hi : data.index "agent" = .ok agentName)
    (hf : findSubAgent agent.subAgents agentName = some sub)
    (hrun : loopIter oracle history sub
      (seedMessages sub (data.getD "message" (.str "")) history)
      (depth + 1) 10 (idx + 1) = (.error e, subTrace)) :
    loopIter oracle history agent msgs depth (r + 1) idx =
      (let rest := loopIter oracle history agent
        (msgs ++ [Message.mk "assistant" (.str resp.raw),
          Message.mk "user" (.str ("Sub-agent result: " ++
            ("Error delegating to sub-agent: " ++ e.pyMsg)))])
        depth r (idx + 1 + subTrace.length)
      (rest.1, ⟨depth, msgs⟩ :: (subTrace ++ rest.2))) := by
  rw [loopIter_delegate h hp ht ha hi hf]
  simp only [hrun]

theorem alternating_loop :
    ∀ (r k : Nat) (msgs : List Message),
      (loopIter oracleAlternating hist0 agentA msgs 0 r (2 * k)).1 =
          .ok "Error: Maximum iterations reached" ∧
        (loopIter oracleAlternating hist0 agentA msgs 0 r (2 * k)).2.length =
          2 * r := by
  intro r
  induction r with
  | zero =>
      intro k msgs
      unfold loopIter
      simp
  | succ r ih =>
      intro k msgs
      have hm0 : (2 * k) % 2 = 0 := by omega
      have hm1 : (2 * k + 1) % 2 = 1 := by omega
      have he : oracleAlternating (2 * k) = .ok delegResp := by
        simp [oracleAlternating, hm0]
      have ho : oracleAlternating (2 * k + 1) = .ok doneResp := by
        simp [oracleAlternating, hm1]
      have hsub : loopIter oracleAlternating hist0 agentB
          (seedMessages agentB (Json.getD delegData "message" (.str "")) hist0)
          1 10 (2 * k + 1) =
            (.ok "All done.", [⟨1, seedMessages agentB
              (Json.getD delegData "message" (.str "")) hist0⟩]) := by
        rw [loopIter_ten]
        exact loopIter_notJson ho rfl
      rw [loopIter_delegate_ok he
        (show delegResp.parsed = some delegData from rfl)
        (show delegData.hasKey "tool" = .ok false from rfl)
        (show delegData.hasKey "agent" = .ok true from rfl)
        (show delegData.index "agent" = .ok (.str "B") from rfl)
        (show findSubAgent agentA.subAgents (.str "B") = some agentB from rfl)
        hsub]
      simp only [List.length_singleton]
      have h2 : 2 * k + 1 + 1 = 2 * (k + 1) := by omega
      rw [h2]
      obtain ⟨ih1, ih2⟩ := ih (k + 1)
        (msgs ++ [Message.mk "assistant" (.str delegResp.raw),
          Message.mk "user" (.str ("Sub-agent result: " ++ "All done."))])
      refine ⟨ih1, ?_⟩
      simp only [List.length_cons, List.length_append, List.length_singleton,
        List.length_nil, ih2]
      omega

/-! ## Further fixtures -/

/-- `json.loads("42")` succeeds with the integer 42. -/
def num42Resp : BackendResponse := ⟨"42", some (.num 42)⟩

def oracle42 : Nat → BackendResult := fun _ => .ok num42Resp

/-- A tool-call envelope naming an unregistered tool. -/
def toolBogusData : Json := .obj [("tool", .str "bogus")]

def toolBogusResp : BackendResponse :=
  ⟨"\x7b\"tool\": \"bogus\"\x7d", some toolBogusData⟩

def oracleAllTool : Nat → BackendResult := fun _ => .ok toolBogusResp

def doneResp2 : BackendResponse := ⟨"done", none⟩

def oracleBogusThenDone : Nat → BackendResult :=
  fun i => if i == 0 then .ok toolBogusResp else .ok doneResp2

def okBang : BackendResponse := ⟨"ok!", none⟩

/-- Backend stream: delegation envelope first, then a transport failure
(hitting the sub-agent's first backend call), then plain text. -/
def oracleSubCrash : Nat → BackendResult :=
  fun i => if i == 0 then .ok delegResp
    else if i == 1 then .err "boom" else .ok okBang

def oracleErr : Nat → BackendResult := fun _ => .err "boom"

/-- A tool whose executor always raises. -/
def crashTool : Tool := ⟨"crash", "always raises", fun _ => .error "division by zero"⟩

def toolAgent : Agent := .mk "T" "has a crashing tool" "Use tools." [crashTool] []

def crashEnvData : Json := .obj [("tool", .str "crash"), ("arguments", .obj [])]

def crashEnvResp : BackendResponse :=
  ⟨"\x7b\"tool\": \"crash\", \"arguments\": \x7b\x7d\x7d", some crashEnvData⟩

def oracleCrashTool : Nat → BackendResult :=
  fun i => if i == 0 then .ok crashEnvResp else .ok doneResp2

/-- An envelope carrying both a "tool" and an "agent" key. -/
def bothKeysData : Json := .obj [("tool", .str "t"), ("agent", .str "B")]

def bothKeysResp : BackendResponse :=
  ⟨"\x7b\"tool\": \"t\", \"agent\": \"B\"\x7d", some bothKeysData⟩

def oracleBothKeys : Nat → BackendResult := fun _ => .ok bothKeysResp

theorem processMessage_nonjson {oracle : Nat → BackendResult} {agent : Agent}
    {m : Json} {hist : List Message} {depth idx : Nat} {resp : BackendResponse}
    (h : oracle idx = .ok resp) (hp : resp.parsed = none) :
    processMessage oracle agent m hist depth idx =
      (.ok resp.raw, [⟨depth, seedMessages agent m hist⟩]) := by
  unfold processMessage
  rw [loopIter_ten]
  exact loopIter_notJson h hp

theorem extractText_hi : extractText ["hi"] = "hi" := rfl

/-- The sub-agent run of the `oracleSubCrash` scenario: its first (and
only) backend call raises a BackendError, which escapes its loop. -/
theorem subCrash_subrun :
    loopIter oracleSubCrash hist0 agentB
      (seedMessages agentB (delegData.getD "message" (.str "")) hist0)
      1 10 1 =
      (.error (.backendError "boom"),
        [⟨1, seedMessages agentB (delegData.getD "message" (.str "")) hist0⟩]) := by
  rw [loopIter_ten]
  exact loopIter_backendErr rfl

/-! ## Claim theorems -/

/-- C1 (amended): the iteration cap bounds the orchestration loop's OWN
backend calls: on every external call the top-level loop makes at most 10
backend calls at delegation depth 0, and when every backend response is a
tool-call envelope the call returns the fixed text
"Error: Maximum iterations reached" after exactly 10 backend calls in
total.  (Delegation runs the sub-agent's loop with its own cap of 10, so
the TOTAL number of backend calls of one external call can exceed 10 —
see the counterexample.) -/
theorem iteration_cap_bounds_loop_own_calls :
    (∀ (oracle : Nat → BackendResult) (agent : Agent) (parts : List String),
      ((runAsync oracle agent parts).trace.filter
        (fun c => c.depth == 0)).length ≤ 10) ∧
    (∀ (oracle : Nat → BackendResult) (agent : Agent) (parts : List String),
      (∀ i, isStrToolEnvelope (oracle i) = true) →
        (runAsync oracle agent parts).result =
            .ok "Error: Maximum iterations reached" ∧
          (runAsync oracle agent parts).trace.length = 10) := by
  constructor
  · intro oracle agent parts
    rw [runAsync_trace]
    unfold processMessage
    exact loopIter_own_calls_le oracle _ agent _ 0 10 0
  · intro oracle agent parts h
    rw [runAsync_result, runAsync_trace]
    unfold processMessage
    exact loopIter_allTool h _ agent 0 10 _ 0

theorem iteration_cap_bounds_loop_own_calls_witness :
    ((runAsync oracleAllTool plainAgent ["hi"]).trace.filter
      (fun c => c.depth == 0)).length ≤ 10 ∧
    ((runAsync oracleAllTool plainAgent ["hi"]).result =
        .ok "Error: Maximum iterations reached" ∧
      (runAsync oracleAllTool plainAgent ["hi"]).trace.length = 10) :=
  ⟨iteration_cap_bounds_loop_own_calls.1 oracleAllTool plainAgent ["hi"],
   iteration_cap_bounds_loop_own_calls.2 oracleAllTool plainAgent ["hi"]
     (fun _ => rfl)⟩

/-- C1 counterexample: with sub-agent "B" configured and a backend stream
where the parent always receives a delegation envelope and the sub-agent
a plain answer, one external call makes 20 backend calls (the claim says
at most 10), and the cap is reached after 20 — not 10 — total calls. -/
theorem delegation_makes_twenty_backend_calls :
    (runAsync oracleAlternating agentA ["hi"]).trace.length = 20 ∧
      (runAsync oracleAlternating agentA ["hi"]).result =
        .ok "Error: Maximum iterations reached" := by
  have h := alternating_loop 10 0
    (seedMessages agentA (.str "hi") hist0)
  constructor
  · rw [runAsync_trace]
    unfold processMessage
    rw [extractText_hi]
    simpa [hist0] using h.2
  · rw [runAsync_result]
    unfold processMessage
    rw [extractText_hi]
    simpa [hist0] using h.1

/-- C2 (code behaviour at the failing input): a successful call with
message "hi" on a fresh session "s1" answers "Hello", yet the stored
session's history stays empty — `run_async` builds a throwaway `Session`
object (its user/assistant pair lands there) and never touches the
session the route got or created in the `SessionService`. -/
theorem stored_session_history_never_updated :
    (processAgentRequest oracleHello plainAgent "app" [] ["hi"] "s1").2 =
        .ok "Hello" ∧
      (processAgentRequest oracleHello plainAgent "app" [] ["hi"] "s1").1.find?
        (fun e => e.1 == "app:default_user:s1") =
          some ("app:default_user:s1", []) ∧
      (runAsync oracleHello plainAgent ["hi"]).history =
        [Message.mk "user" (.str "hi"), Message.mk "assistant" (.str "Hello")] := by
  have hrun : runAsync oracleHello plainAgent ["hi"] =
      ⟨.ok "Hello",
        [Message.mk "user" (.str "hi"), Message.mk "assistant" (.str "Hello")],
        [⟨0, seedMessages plainAgent (.str "hi")
          [Message.mk "user" (.str "hi")]⟩]⟩ := by
    simp only [runAsync, extractText_hi, List.nil_append]
    rw [processMessage_nonjson (by rfl) (by rfl)]
    rfl
  refine ⟨?_, ?_, ?_⟩
  · simp [processAgentRequest, hrun]
  · simp [processAgentRequest, hrun]
  · rw [hrun]

/-- C3 (amended): the working list sent to the first backend call of an
external call is the system message followed by the new user message
TWICE: `run_async` commits the user turn to the freshly created session
before invoking the loop, and the loop appends the message again after
the session history. -/
theorem first_backend_call_duplicates_user_message
    (oracle : Nat → BackendResult) (agent : Agent) (parts : List String) :
    (runAsync oracle agent parts).trace.head? = some ⟨0,
      [Message.mk "system" (.str (buildSystemPrompt agent)),
       Message.mk "user" (.str (extractText parts)),
       Message.mk "user" (.str (extractText parts))]⟩ := by
  rw [runAsync_trace]
  unfold processMessage
  rw [loopIter_ten, loopIter_trace_head]
  simp [seedMessages]

/-- C3 counterexample: for input "hi" the first backend call's message
list contains the new user message twice — the claim says it appears
once with no duplication. -/
theorem first_backend_call_user_message_count :
    ((runAsync oracleHello plainAgent ["hi"]).trace.head?.map
      (fun c => c.messages.count (Message.mk "user" (.str "hi")))) = some 2 := by
  rw [runAsync_trace]
  unfold processMessage
  rw [loopIter_ten, loopIter_trace_head, extractText_hi]
  rfl

/-- C4: a backend response that is not valid JSON ends the loop on that
iteration with the raw text as the final answer; in particular a non-JSON
first response means the external call makes exactly one backend call and
returns that text verbatim. -/
theorem nonjson_response_returned_verbatim :
    (∀ (oracle : Nat → BackendResult) (history : List Message)
      (agent : Agent) (msgs : List Message) (depth r idx : Nat)
      (resp : BackendResponse),
      oracle idx = .ok resp → resp.parsed = none →
        loopIter oracle history agent msgs depth (r + 1) idx =
          (.ok resp.raw, [⟨depth, msgs⟩])) ∧
    (∀ (oracle : Nat → BackendResult) (agent : Agent) (parts : List String)
      (resp : BackendResponse),
      oracle 0 = .ok resp → resp.parsed = none →
        (runAsync oracle agent parts).result = .ok resp.raw ∧
          (runAsync oracle agent parts).trace.length = 1) := by
  constructor
  · intro oracle history agent msgs depth r idx resp h hp
    exact loopIter_notJson h hp
  · intro oracle agent parts resp h hp
    rw [runAsync_result, runAsync_trace, processMessage_nonjson h hp]
    exact ⟨rfl, rfl⟩

theorem nonjson_response_returned_verbatim_witness :
    loopIter oracleHello hist0 plainAgent [] 0 (0 + 1) 5 =
        (.ok "Hello", [⟨0, []⟩]) ∧
      ((runAsync oracleHello plainAgent ["hi"]).result = .ok "Hello" ∧
        (runAsync oracleHello plainAgent ["hi"]).trace.length = 1) :=
  ⟨nonjson_response_returned_verbatim.1 oracleHello hist0 plainAgent []
      0 0 5 helloResp rfl rfl,
   nonjson_response_returned_verbatim.2 oracleHello plainAgent ["hi"]
      helloResp rfl rfl⟩

/-- C5 counterexample: a backend response of "42" (valid JSON, not an
object) makes the loop raise an uncaught `TypeError` from
`"tool" in response_data` — an unhandled fault that is not a
`BackendError`, although no backend call failed. -/
theorem json_number_response_raises_typeerror :
    (runAsync oracle42 plainAgent ["hi"]).result =
      .error (.typeError "argument of type int is not iterable") := by
  rw [runAsync_result]
  unfold processMessage
  rw [loopIter_ten,
    loopIter_keyTypeErr (r := 9)
      (show oracle42 0 = .ok num42Resp from rfl)
      (show num42Resp.parsed = some (.num 42) from rfl)
      (show (Json.num 42).hasKey "tool" =
        .error (.typeError "argument of type int is not iterable") from rfl)]

/-- C5 (amended): with BackendErrors excluded, the loop absorbs every
other failure and returns a string — provided each response either fails
to parse, or parses to an object whose "tool" entry (if present) is not a
dict/list, or to a string/array not containing "tool" or "agent".  A JSON
number, boolean or null, a string or array containing "tool"/"agent", or
a dict/list "tool" value instead raises an uncaught TypeError (inside a
delegated sub-agent such faults are converted to the textual delegation
result instead). -/
theorem safe_responses_always_absorbed
    (oracle : Nat → BackendResult) (agent : Agent) (parts : List String)
    (h : ∀ i, responseSafe (oracle i) = true) :
    ∃ s, (runAsync oracle agent parts).result = .ok s := by
  rw [runAsync_result]
  unfold processMessage
  exact loopIter_safe h _ agent _ 0 10 0

theorem safe_responses_always_absorbed_witness :
    ∃ s, (runAsync oracleHello plainAgent ["hi"]).result = .ok s :=
  safe_responses_always_absorbed oracleHello plainAgent ["hi"] (fun _ => rfl)

/-- C6 counterexample: a BackendError raised during a delegated
sub-agent's loop does NOT abort the external call: the delegation handler
catches it and feeds "Error delegating to sub-agent: boom" back into the
parent's conversation, which continues and answers "ok!" after 3 backend
calls in total. -/
theorem subagent_backend_error_converted_to_text :
    (runAsync oracleSubCrash agentA ["hi"]).result = .ok "ok!" ∧
      (runAsync oracleSubCrash agentA ["hi"]).trace.length = 3 ∧
      ((runAsync oracleSubCrash agentA ["hi"]).trace.getLast?.map
        (fun c => c.messages.getLast?)) = some (some (Message.mk "user"
          (.str "Sub-agent result: Error delegating to sub-agent: boom"))) := by
  have hmain : loopIter oracleSubCrash hist0 agentA
      (seedMessages agentA (.str "hi") hist0) 0 10 0 =
      (.ok "ok!",
        [⟨0, seedMessages agentA (.str "hi") hist0⟩,
         ⟨1, seedMessages agentB (delegData.getD "message" (.str "")) hist0⟩,
         ⟨0, seedMessages agentA (.str "hi") hist0 ++
           [Message.mk "assistant" (.str delegResp.raw),
            Message.mk "user" (.str ("Sub-agent result: " ++
              ("Error delegating to sub-agent: " ++
                (PyError.backendError "boom").pyMsg)))]⟩]) := by
    rw [loopIter_ten,
      loopIter_delegate_err
        (show oracleSubCrash 0 = .ok delegResp from rfl)
        (show delegResp.parsed = some delegData from rfl)
        (show delegData.hasKey "tool" = .ok false from rfl)
        (show delegData.hasKey "agent" = .ok true from rfl)
        (show delegData.index "agent" = .ok (.str "B") from rfl)
        (show findSubAgent agentA.subAgents (.str "B") = some agentB from rfl)
        subCrash_subrun]
    have hrest : loopIter oracleSubCrash hist0 agentA
        (seedMessages agentA (.str "hi") hist0 ++
          [Message.mk "assistant" (.str delegResp.raw),
           Message.mk "user" (.str ("Sub-agent result: " ++
             ("Error delegating to sub-agent: " ++
               (PyError.backendError "boom").pyMsg)))]) 0 9
        (0 + 1 + 1) = (.ok "ok!",
          [⟨0, seedMessages agentA (.str "hi") hist0 ++
            [Message.mk "assistant" (.str delegResp.raw),
             Message.mk "user" (.str ("Sub-agent result: " ++
               ("Error delegating to sub-agent: " ++
                 (PyError.backendError "boom").pyMsg)))]⟩]) := by
      rw [show (9 : Nat) = 8 + 1 from rfl]
      exact loopIter_notJson
        (show oracleSubCrash (0 + 1 + 1) = .ok okBang from rfl)
        (show okBang.parsed = none from rfl)
    simp only [List.length_singleton, hrest]
    rfl
  refine ⟨?_, ?_, ?_⟩
  · rw [runAsync_result]
    unfold processMessage
    rw [extractText_hi]
    rw [show [Message.mk "user" (Json.str "hi")] = hist0 from rfl, hmain]
  · rw [runAsync_trace]
    unfold processMessage
    rw [extractText_hi]
    rw [show [Message.mk "user" (Json.str "hi")] = hist0 from rfl, hmain]
    rfl
  · rw [runAsync_trace]
    unfold processMessage
    rw [extractText_hi]
    rw [show [Message.mk "user" (Json.str "hi")] = hist0 from rfl, hmain]
    rfl

/-- Backend stream: a tool-call envelope on the first call, then a
transport failure on every later call — a BackendError hitting the loop
in its second iteration. -/
def oracleToolThenErr : Nat → BackendResult :=
  fun i => if i == 0 then .ok toolBogusResp else .err "boom"

/-- The top-level working list after one (unknown-tool) iteration of the
`oracleToolThenErr` scenario. -/
def afterToolMsgs : List Message :=
  seedMessages plainAgent (.str "hi") hist0 ++
    [Message.mk "assistant" (.str toolBogusResp.raw),
     Message.mk "user" (.str ("Tool result: " ++
       ("Error: Tool '" ++ "bogus" ++ "' not found")))]

/-- When the loop's result is an exception, `run_async` re-raises before
committing the assistant turn: the throwaway session keeps only the user
message. -/
theorem runAsync_history_err {oracle : Nat → BackendResult} {agent : Agent}
    {parts : List String} {e : PyError}
    (h : (processMessage oracle agent (.str (extractText parts))
      [Message.mk "user" (.str (extractText parts))] 0 0).1 = .error e) :
    (runAsync oracle agent parts).history =
      [Message.mk "user" (.str (extractText parts))] := by
  unfold runAsync
  simp only [List.nil_append]
  split <;> simp_all

/-- Concrete run whose only backend call fails with a transport error. -/
theorem errRun_fst :
    (processMessage oracleErr plainAgent (.str (extractText ["hi"]))
      [Message.mk "user" (.str (extractText ["hi"]))] 0 0).1 =
      .error (.backendError "boom") := by
  unfold processMessage
  rw [loopIter_ten,
    loopIter_backendErr (show oracleErr 0 = .err "boom" from rfl)]

/-- C6 (amended): a BackendError in any of the loop's OWN backend calls —
whatever iteration the loop has reached, whatever its working list and
call index — immediately ends the invocation with that error: the failing
call is the trace's only new entry (no retry) and the error is not
converted to text (first part); `run_async` passes such an exception
through to its caller unchanged, committing no assistant turn (second
part).  But a BackendError raised inside a delegated sub-agent's loop is
caught by the delegation handler and converted into the textual result
"Error delegating to sub-agent: <message>", and the parent loop continues
(third part). -/
theorem backend_error_propagation_scope :
    (∀ (oracle : Nat → BackendResult) (history : List Message)
      (agent : Agent) (msgs : List Message) (depth r idx : Nat) (e : String),
      oracle idx = .err e →
        loopIter oracle history agent msgs depth (r + 1) idx =
          (.error (.backendError e), [⟨depth, msgs⟩])) ∧
    (∀ (oracle : Nat → BackendResult) (agent : Agent) (parts : List String)
      (e : String),
      (processMessage oracle agent (.str (extractText parts))
        [Message.mk "user" (.str (extractText parts))] 0 0).1 =
          .error (.backendError e) →
        (runAsync oracle agent parts).result = .error (.backendError e) ∧
          (runAsync oracle agent parts).history =
            [Message.mk "user" (.str (extractText parts))]) ∧
    (∀ (oracle : Nat → BackendResult) (history : List Message)
      (agent : Agent) (msgs : List Message) (depth r idx : Nat)
      (resp : BackendResponse) (data agentName : Json) (sub : Agent)
      (e : PyError) (subTrace : List CallRecord),
      oracle idx = .ok resp → resp.parsed = some data →
      data.hasKey "tool" = .ok false → data.hasKey "agent" = .ok true →
      data.index "agent" = .ok agentName →
      findSubAgent agent.subAgents agentName = some sub →
      loopIter oracle history sub
        (seedMessages sub (data.getD "message" (.str "")) history)
        (depth + 1) 10 (idx + 1) = (.error e, subTrace) →
      loopIter oracle history agent msgs depth (r + 1) idx =
        (let rest := loopIter oracle history agent
          (msgs ++ [Message.mk "assistant" (.str resp.raw),
            Message.mk "user" (.str ("Sub-agent result: " ++
              ("Error delegating to sub-agent: " ++ e.pyMsg)))])
          depth r (idx + 1 + subTrace.length)
        (rest.1, ⟨depth, msgs⟩ :: (subTrace ++ rest.2)))) := by
  refine ⟨?_, ?_, ?_⟩
  · intro oracle history agent msgs depth r idx e h
    exact loopIter_backendErr h
  · intro oracle agent parts e h
    exact ⟨by rw [runAsync_result, h], runAsync_history_err h⟩
  · intro oracle history agent msgs depth r idx resp data agentName sub e
      subTrace h hp ht ha hi hf hrun
    exact loopIter_delegate_err h hp ht ha hi hf hrun

theorem backend_error_propagation_scope_witness :
    loopIter oracleToolThenErr hist0 plainAgent afterToolMsgs 0 (8 + 1) 1 =
        (.error (.backendError "boom"), [⟨0, afterToolMsgs⟩]) ∧
    ((runAsync oracleErr plainAgent ["hi"]).result =
        .error (.backendError "boom") ∧
      (runAsync oracleErr plainAgent ["hi"]).history =
        [Message.mk "user" (.str (extractText ["hi"]))]) ∧
    loopIter oracleSubCrash hist0 agentA [] 0 (0 + 1) 0 =
      (let rest := loopIter oracleSubCrash hist0 agentA
        ([] ++ [Message.mk "assistant" (.str delegResp.raw),
          Message.mk "user" (.str ("Sub-agent result: " ++
            ("Error delegating to sub-agent: " ++
              (PyError.backendError "boom").pyMsg)))])
        0 0 (0 + 1 + [(⟨1, seedMessages agentB
          (delegData.getD "message" (.str "")) hist0⟩ : CallRecord)].length)
      (rest.1, ⟨0, []⟩ :: ([(⟨1, seedMessages agentB
        (delegData.getD "message" (.str "")) hist0⟩ : CallRecord)] ++ rest.2))) :=
  ⟨backend_error_propagation_scope.1 oracleToolThenErr hist0 plainAgent
      afterToolMsgs 0 8 1 "boom" rfl,
   backend_error_propagation_scope.2.1 oracleErr plainAgent ["hi"] "boom"
      errRun_fst,
   backend_error_propagation_scope.2.2 oracleSubCrash hist0 agentA [] 0 0 0
     delegResp delegData (.str "B") agentB (.backendError "boom")
     [⟨1, seedMessages agentB (delegData.getD "message" (.str "")) hist0⟩]
     rfl rfl rfl rfl rfl rfl subCrash_subrun⟩

/-- C7: a ToolCall envelope naming a tool absent from the registry raises
no exception: the tool result fed back to the model is
"Error: Tool '<name>' not found" (as the synthetic user message
"Tool result: ..."), the raw model text is appended as an assistant
message, and the loop continues with one iteration consumed and the call
recorded in the trace. -/
theorem unknown_tool_yields_not_found_and_continues
    (oracle : Nat → BackendResult) (history : List Message) (agent : Agent)
    (msgs : List Message) (depth r idx : Nat) (resp : BackendResponse)
    (data : Json) (name : String)
    (h : oracle idx = .ok resp) (hp : resp.parsed = some data)
    (ht : data.hasKey "tool" = .ok true)
    (hi : data.index "tool" = .ok (.str name))
    (hn : toolsLookup agent.tools name = none) :
    loopIter oracle history agent msgs depth (r + 1) idx =
      (let rest := loopIter oracle history agent
        (msgs ++ [Message.mk "assistant" (.str resp.raw),
          Message.mk "user" (.str ("Tool result: " ++
            ("Error: Tool '" ++ name ++ "' not found")))])
        depth r (idx + 1)
      (rest.1, ⟨depth, msgs⟩ :: rest.2)) := by
  have hc : handleToolCall agent.tools (.str name)
      (data.getD "arguments" (.obj [])) =
      .ok ("Error: Tool '" ++ name ++ "' not found") := by
    simp [handleToolCall, hn]
  exact loopIter_toolStep h hp ht hi hc

theorem unknown_tool_yields_not_found_and_continues_witness :
    loopIter oracleBogusThenDone hist0 plainAgent [] 0 (0 + 1) 0 =
      (let rest := loopIter oracleBogusThenDone hist0 plainAgent
        ([] ++ [Message.mk "assistant" (.str toolBogusResp.raw),
          Message.mk "user" (.str ("Tool result: " ++
            ("Error: Tool '" ++ "bogus" ++ "' not found")))])
        0 0 (0 + 1)
      (rest.1, ⟨0, []⟩ :: rest.2)) :=
  unknown_tool_yields_not_found_and_continues oracleBogusThenDone hist0
    plainAgent [] 0 0 0 toolBogusResp toolBogusData "bogus" rfl rfl rfl rfl rfl

/-- C8: an exception inside a tool's executor never propagates: the loop
step converts it into the textual result "Error executing tool: <msg>"
(fed back as the synthetic user message "Tool result: ...") and the loop
continues. -/
theorem tool_executor_exception_converted_to_text
    (oracle : Nat → BackendResult) (history : List Message) (agent : Agent)
    (msgs : List Message) (depth r idx : Nat) (resp : BackendResponse)
    (data : Json) (name : String) (fields : List (String × Json))
    (tool : Tool) (e : String)
    (h : oracle idx = .ok resp) (hp : resp.parsed = some data)
    (ht : data.hasKey "tool" = .ok true)
    (hi : data.index "tool" = .ok (.str name))
    (hl : toolsLookup agent.tools name = some tool)
    (hargs : data.getD "arguments" (.obj []) = .obj fields)
    (he : tool.func fields = .error e) :
    loopIter oracle history agent msgs depth (r + 1) idx =
      (let rest := loopIter oracle history agent
        (msgs ++ [Message.mk "assistant" (.str resp.raw),
          Message.mk "user" (.str ("Tool result: " ++
            ("Error executing tool: " ++ e)))])
        depth r (idx + 1)
      (rest.1, ⟨depth, msgs⟩ :: rest.2)) := by
  have hc : handleToolCall agent.tools (.str name)
      (data.getD "arguments" (.obj [])) =
      .ok ("Error executing tool: " ++ e) := by
    rw [hargs]
    simp [handleToolCall, hl, he]
  exact loopIter_toolStep h hp ht hi hc

theorem tool_executor_exception_converted_to_text_witness :
    loopIter oracleCrashTool hist0 toolAgent [] 0 (0 + 1) 0 =
      (let rest := loopIter oracleCrashTool hist0 toolAgent
        ([] ++ [Message.mk "assistant" (.str crashEnvResp.raw),
          Message.mk "user" (.str ("Tool result: " ++
            ("Error executing tool: " ++ "division by zero")))])
        0 0 (0 + 1)
      (rest.1, ⟨0, []⟩ :: rest.2)) :=
  tool_executor_exception_converted_to_text oracleCrashTool hist0 toolAgent
    [] 0 0 0 crashEnvResp crashEnvData "crash" [] crashTool
    "division by zero" rfl rfl rfl rfl rfl rfl rfl

/-- C10: when a parsed backend response is an object carrying BOTH a
"tool" and an "agent" key, the loop takes the tool branch (first part:
the continuation appends a "Tool result:" message, never a delegation
result); the delegation branch requires the "tool" membership test to
come back false (second part). -/
theorem tool_key_takes_precedence_over_agent_key :
    (∀ (oracle : Nat → BackendResult) (history : List Message)
      (agent : Agent) (msgs : List Message) (depth r idx : Nat)
      (resp : BackendResponse) (data toolName : Json) (toolResult : String),
      oracle idx = .ok resp → resp.parsed = some data →
      data.hasKey "tool" = .ok true →
      data.hasKey "agent" = .ok true →
      data.index "tool" = .ok toolName →
      handleToolCall agent.tools toolName
        (data.getD "arguments" (.obj [])) = .ok toolResult →
      loopIter oracle history agent msgs depth (r + 1) idx =
        (let rest := loopIter oracle history agent
          (msgs ++ [Message.mk "assistant" (.str resp.raw),
            Message.mk "user" (.str ("Tool result: " ++ toolResult))])
          depth r (idx + 1)
        (rest.1, ⟨depth, msgs⟩ :: rest.2))) ∧
    (∀ (oracle : Nat → BackendResult) (history : List Message)
      (agent : Agent) (msgs : List Message) (depth r idx : Nat)
      (resp : BackendResponse) (data agentName : Json) (sub : Agent),
      oracle idx = .ok resp → resp.parsed = some data →
      data.hasKey "tool" = .ok false →
      data.hasKey "agent" = .ok true →
      data.index "agent" = .ok agentName →
      findSubAgent agent.subAgents agentName = some sub →
      loopIter oracle history agent msgs depth (r + 1) idx =
        (let subRun := loopIter oracle history sub
          (seedMessages sub (data.getD "message" (.str "")) history)
          (depth + 1) 10 (idx + 1)
        let agentResult := match subRun.1 with
          | .ok t => t
          | .error e => "Error delegating to sub-agent: " ++ e.pyMsg
        let rest := loopIter oracle history agent
          (msgs ++ [Message.mk "assistant" (.str resp.raw),
            Message.mk "user" (.str ("Sub-agent result: " ++ agentResult))])
          depth r (idx + 1 + subRun.2.length)
        (rest.1, ⟨depth, msgs⟩ :: (subRun.2 ++ rest.2)))) := by
  constructor
  · intro oracle history agent msgs depth r idx resp data toolName
      toolResult h hp ht _ha hi hc
    exact loopIter_toolStep h hp ht hi hc
  · intro oracle history agent msgs depth r idx resp data agentName sub
      h hp ht ha hi hf
    exact loopIter_delegate h hp ht ha hi hf

theorem tool_key_takes_precedence_over_agent_key_witness :
    loopIter oracleBothKeys hist0 agentA [] 0 (0 + 1) 0 =
      (let rest := loopIter oracleBothKeys hist0 agentA
        ([] ++ [Message.mk "assistant" (.str bothKeysResp.raw),
          Message.mk "user" (.str ("Tool result: " ++
            ("Error: Tool '" ++ "t" ++ "' not found")))])
        0 0 (0 + 1)
      (rest.1, ⟨0, []⟩ :: rest.2)) ∧
    loopIter oracleAlternating hist0 agentA [] 0 (0 + 1) 0 =
      (let subRun := loopIter oracleAlternating hist0 agentB
        (seedMessages agentB (delegData.getD "message" (.str "")) hist0)
        (0 + 1) 10 (0 + 1)
      let agentResult := match subRun.1 with
        | .ok t => t
        | .error e => "Error delegating to sub-agent: " ++ e.pyMsg
      let rest := loopIter oracleAlternating hist0 agentA
        ([] ++ [Message.mk "assistant" (.str delegResp.raw),
          Message.mk "user" (.str ("Sub-agent result: " ++ agentResult))])
        0 0 (0 + 1 + subRun.2.length)
      (rest.1, ⟨0, []⟩ :: (subRun.2 ++ rest.2))) :=
  ⟨tool_key_takes_precedence_over_agent_key.1 oracleBothKeys hist0 agentA
      [] 0 0 0 bothKeysResp bothKeysData (.str "t")
      ("Error: Tool '" ++ "t" ++ "' not found") rfl rfl rfl rfl rfl rfl,
   tool_key_takes_precedence_over_agent_key.2 oracleAlternating hist0 agentA
      [] 0 0 0 delegResp delegData (.str "B") agentB rfl rfl rfl rfl rfl rfl⟩
